import Mathlib

/-
  Verification development for the Indigo hedging system repository.

  The two Python source files are shallowly embedded here:
  - realtime_data_collector.py: the rate fetchers, the fallback generators,
    the persistence writer and the collection cycle;
  - app.py: the reader (load_data), the change calculator
    (calculate_price_changes) and the threshold signal classifiers in main.

  Numbers are modelled as exact rationals; the Python builtin round
  (round half to even, to n decimal places) is modelled by pyRound.
  External effects (network fetches, random draws, the SQLite store, the
  clock) are passed in explicitly as environment values, so every function
  of the embedding is total and executable.
-/

namespace Indigo

/-- Round half to even to an integer, as the Python builtin round does. -/
def roundHalfEven (x : ℚ) : ℤ :=
  if x - ⌊x⌋ < 1/2 then ⌊x⌋
  else if 1/2 < x - ⌊x⌋ then ⌊x⌋ + 1
  else if ⌊x⌋ % 2 = 0 then ⌊x⌋ else ⌊x⌋ + 1

/-- Python round(x, n): round half to even at n decimal places. -/
def pyRound (x : ℚ) (n : ℕ) : ℚ :=
  (roundHalfEven (x * 10 ^ n) : ℚ) / 10 ^ n

/-- One row of the fuel_prices series, the keys the collector writes. -/
structure FuelObs where
  jet_fuel : ℚ
  brent_crude : ℚ
  wti_crude : ℚ
  timestamp : ℤ
  deriving DecidableEq, Repr

/-- One row of the currency_rates series, the keys the collector writes. -/
structure CurrencyObs where
  usd_inr : ℚ
  eur_inr : ℚ
  gbp_inr : ℚ
  jpy_inr : ℚ
  timestamp : ℤ
  deriving DecidableEq, Repr

/-- Outcome of one external data source: a well formed payload, an empty
payload, or a raised error. -/
inductive SourceResult (α : Type) where
  | ok (value : α)
  | empty
  | err
  deriving DecidableEq

/-- The success branch of RealTimeDataCollector.get_live_fuel_prices:
given the two latest closes, jet fuel is derived as the mean of the two
benchmarks times the fixed 1.35 proxy multiplier, rounded to 6 places,
and each benchmark is rounded to 2 places. -/
def fuelObsOfBenchmarks (brent wti : ℚ) (now : ℤ) : FuelObs :=
  { jet_fuel := pyRound ((brent + wti) / 2 * 1.35) 6
    brent_crude := pyRound brent 2
    wti_crude := pyRound wti 2
    timestamp := now }

/-- RealTimeDataCollector._get_fallback_fuel_prices, with the three
random.uniform draws passed in explicitly. -/
def fallbackFuelPrices (j b w : ℚ) (now : ℤ) : FuelObs :=
  { jet_fuel := pyRound j 6
    brent_crude := pyRound b 2
    wti_crude := pyRound w 2
    timestamp := now }

/-- RealTimeDataCollector._get_fallback_currency_rates, with the four
random.uniform draws passed in explicitly. -/
def fallbackCurrencyRates (u e g jp : ℚ) (now : ℤ) : CurrencyObs :=
  { usd_inr := pyRound u 2
    eur_inr := pyRound e 2
    gbp_inr := pyRound g 2
    jpy_inr := pyRound jp 6
    timestamp := now }

/-- The environment a fuel collection cycle runs in: the Yahoo Finance
outcome (latest brent and wti closes when both histories are non empty),
the fallback draws, and the clock. -/
structure FuelEnv where
  source : SourceResult (ℚ × ℚ)
  drawJet : ℚ
  drawBrent : ℚ
  drawWti : ℚ
  now : ℤ

/-- RealTimeDataCollector.get_live_fuel_prices: the live source when its
payload is complete, otherwise the fallback generator (both on an empty
payload and on a raised error, which the method catches). -/
def get_live_fuel_prices (env : FuelEnv) : Option FuelObs :=
  match env.source with
  | .ok (b, w) => some (fuelObsOfBenchmarks b w env.now)
  | .empty => some (fallbackFuelPrices env.drawJet env.drawBrent env.drawWti env.now)
  | .err => some (fallbackFuelPrices env.drawJet env.drawBrent env.drawWti env.now)

/-- The exchangerate api branch of get_live_currency_rates: the USD based
rate table gives INR directly and the three cross rates by division; each
rates.get lookup has the fixed default used in the source. -/
def exchangerateCurrencyRates (inr eur gbp jpy : Option ℚ) (now : ℤ) : CurrencyObs :=
  { usd_inr := pyRound (inr.getD 83.0) 2
    eur_inr := pyRound (inr.getD 83.0 / eur.getD 0.85) 2
    gbp_inr := pyRound (inr.getD 83.0 / gbp.getD 0.73) 2
    jpy_inr := pyRound (inr.getD 83.0 / jpy.getD 110.0) 6
    timestamp := now }

/-- The Yahoo Finance branch of get_live_currency_rates: four direct pair
quotes, none standing for an empty price history. The whole branch yields
nothing when the usd quote is empty; an empty eur, gbp or jpy quote is
replaced by its fixed literal default. -/
def yahooCurrencyRates (usd eur gbp jpy : Option ℚ) (now : ℤ) : Option CurrencyObs :=
  match usd with
  | none => none
  | some u => some
      { usd_inr := pyRound u 2
        eur_inr := match eur with | some e => pyRound e 2 | none => 90.0
        gbp_inr := match gbp with | some g => pyRound g 2 | none => 105.0
        jpy_inr := match jpy with | some jp => pyRound jp 6 | none => 0.55
        timestamp := now }

/-- The environment a currency collection cycle runs in: source A is the
exchangerate api (ok carries the INR, EUR, GBP, JPY entries of the rates
table, each none when absent from the table), source B is Yahoo Finance
(ok carries the four pair quotes, each none when its history is empty),
then the fallback draws and the clock. -/
structure CurrencyEnv where
  sourceA : SourceResult (Option ℚ × Option ℚ × Option ℚ × Option ℚ)
  sourceB : SourceResult (Option ℚ × Option ℚ × Option ℚ × Option ℚ)
  drawUsd : ℚ
  drawEur : ℚ
  drawGbp : ℚ
  drawJpy : ℚ
  now : ℤ

/-- RealTimeDataCollector.get_live_currency_rates: source A when it
responds with a rate table, else source B when its usd quote is live
(empty or failing eur, gbp, jpy quotes degrade to literal defaults
inside yahooCurrencyRates), else the fallback generator. -/
def get_live_currency_rates (env : CurrencyEnv) : Option CurrencyObs :=
  match env.sourceA with
  | .ok (inr, eur, gbp, jpy) => some (exchangerateCurrencyRates inr eur gbp jpy env.now)
  | _ =>
    match env.sourceB with
    | .ok (usd, eur, gbp, jpy) =>
      match yahooCurrencyRates usd eur gbp jpy env.now with
      | some obs => some obs
      | none => some (fallbackCurrencyRates env.drawUsd env.drawEur env.drawGbp env.drawJpy env.now)
    | _ => some (fallbackCurrencyRates env.drawUsd env.drawEur env.drawGbp env.drawJpy env.now)

/-- The SQLite store as the collector and the dashboard see it: whether
connecting works, whether an insert raises, and the two series (none
standing for an absent table). -/
structure DB where
  reachable : Bool
  insertFails : Bool
  fuel_prices : Option (List FuelObs)
  currency_rates : Option (List CurrencyObs)
  deriving DecidableEq

/-- Whether the two inserts of one cycle go through: the store must be
reachable, the inserts accepted, and the two tables present. -/
def writeOk (db : DB) : Bool :=
  db.reachable && !db.insertFails && db.fuel_prices.isSome && db.currency_rates.isSome

/-- RealTimeDataCollector.store_data_in_database: on success one row is
appended to each series and committed; any error is caught and logged
inside the method, leaving the uncommitted store unchanged, and the
method never raises to its caller. -/
def store_data_in_database (db : DB) (f : FuelObs) (c : CurrencyObs) : DB :=
  if writeOk db then
    { db with fuel_prices := some (db.fuel_prices.getD [] ++ [f])
              currency_rates := some (db.currency_rates.getD [] ++ [c]) }
  else db

/-- RealTimeDataCollector.collect_and_store_realtime_data: fetch both
observations, store them when both are truthy, and report success; the
boolean is the cycle result returned to the caller. -/
def collect_and_store_realtime_data (fenv : FuelEnv) (cenv : CurrencyEnv) (db : DB) :
    Bool × DB :=
  match get_live_fuel_prices fenv, get_live_currency_rates cenv with
  | some f, some c => (true, store_data_in_database db f c)
  | _, _ => (false, db)

/-- The ORDER BY timestamp DESC of the two load_data queries. -/
def sortFuelDesc (l : List FuelObs) : List FuelObs :=
  l.mergeSort (fun a b => decide (b.timestamp ≤ a.timestamp))

/-- The ORDER BY timestamp DESC of the two load_data queries. -/
def sortCurrencyDesc (l : List CurrencyObs) : List CurrencyObs :=
  l.mergeSort (fun a b => decide (b.timestamp ≤ a.timestamp))

/-- app.load_data: none models the (None, None) return taken when the
connection cannot be opened or a query raises (in particular when a table
is absent); otherwise the newest 100 rows of each series, newest first. -/
def load_data (db : DB) : Option (List FuelObs × List CurrencyObs) :=
  if db.reachable then
    match db.fuel_prices, db.currency_rates with
    | some f, some c => some ((sortFuelDesc f).take 100, (sortCurrencyDesc c).take 100)
    | _, _ => none
  else none

/-- The dict built by app.calculate_price_changes, one field per possible
key; none records that the key is absent from the dict. -/
structure PriceChanges where
  jet_fuel_change : Option ℚ
  brent_change : Option ℚ
  wti_change : Option ℚ
  usd_inr_change : Option ℚ
  eur_inr_change : Option ℚ
  gbp_inr_change : Option ℚ
  jpy_inr_change : Option ℚ
  deriving DecidableEq, Repr

/-- The empty dict. -/
def noChanges : PriceChanges :=
  { jet_fuel_change := none, brent_change := none, wti_change := none
    usd_inr_change := none, eur_inr_change := none, gbp_inr_change := none
    jpy_inr_change := none }

/-- The percentage delta (latest - previous) / previous * 100. -/
def pctChange (latest previous : ℚ) : ℚ :=
  (latest - previous) / previous * 100

/-- app.calculate_price_changes on the two newest-first frames: an empty
dict when either frame is empty, else the three fuel keys when the fuel
frame has at least 2 rows and the four currency keys when the currency
frame has at least 2 rows. -/
def calculate_price_changes (fuel_df : List FuelObs) (currency_df : List CurrencyObs) :
    PriceChanges :=
  if fuel_df.isEmpty || currency_df.isEmpty then noChanges
  else
    let fc : Option ℚ × Option ℚ × Option ℚ :=
      match fuel_df with
      | lf :: pf :: _ =>
        (some (pctChange lf.jet_fuel pf.jet_fuel),
         some (pctChange lf.brent_crude pf.brent_crude),
         some (pctChange lf.wti_crude pf.wti_crude))
      | _ => (none, none, none)
    let cc : Option ℚ × Option ℚ × Option ℚ × Option ℚ :=
      match currency_df with
      | lc :: pc :: _ =>
        (some (pctChange lc.usd_inr pc.usd_inr),
         some (pctChange lc.eur_inr pc.eur_inr),
         some (pctChange lc.gbp_inr pc.gbp_inr),
         some (pctChange lc.jpy_inr pc.jpy_inr))
      | _ => (none, none, none, none)
    { jet_fuel_change := fc.1, brent_change := fc.2.1, wti_change := fc.2.2
      usd_inr_change := cc.1, eur_inr_change := cc.2.1
      gbp_inr_change := cc.2.2.1, jpy_inr_change := cc.2.2.2 }

/-- The fuel hedging categories printed by app.main. -/
inductive FuelSignal where
  | HIGH_HEDGE
  | MODERATE_HEDGE
  | LOW_HEDGE
  | MONITOR
  deriving DecidableEq, Repr

/-- The currency hedging categories printed by app.main. -/
inductive CurrencySignal where
  | HIGH_VOLATILITY
  | MODERATE_VOLATILITY
  | STABLE
  deriving DecidableEq, Repr

/-- The ordered if and elif chain of the fuel hedging analysis in
app.main, keyed on the jet fuel percentage change. -/
def fuelHedgingSignal (c : ℚ) : FuelSignal :=
  if c > 2 then .HIGH_HEDGE
  else if c > 0.5 then .MODERATE_HEDGE
  else if c < -1 then .LOW_HEDGE
  else .MONITOR

/-- The ordered if and elif chain of the currency hedging analysis in
app.main, keyed on the usd inr percentage change. -/
def currencyHedgingSignal (c : ℚ) : CurrencySignal :=
  if |c| > 1 then .HIGH_VOLATILITY
  else if |c| > 0.3 then .MODERATE_VOLATILITY
  else .STABLE

/-- Every run of the fuel fetcher produces an observation: each of the
three source outcomes ends in a some branch. -/
theorem fuel_fetch_total (env : FuelEnv) : ∃ f, get_live_fuel_prices env = some f := by
  obtain ⟨src, dj, dbr, dw, n⟩ := env
  cases src with
  | ok v => obtain ⟨b, w⟩ := v; exact ⟨_, rfl⟩
  | empty => exact ⟨_, rfl⟩
  | err => exact ⟨_, rfl⟩

/-- Every run of the currency fetcher produces an observation: each
combination of the two source outcomes ends in a some branch. -/
theorem currency_fetch_total (env : CurrencyEnv) :
    ∃ c, get_live_currency_rates env = some c := by
  obtain ⟨sA, sB, du, de, dg, dj, n⟩ := env
  cases sA with
  | ok v =>
    obtain ⟨i, e, g, j⟩ := v
    exact ⟨_, rfl⟩
  | empty =>
    cases sB with
    | ok v =>
      obtain ⟨u, e, g, j⟩ := v
      cases u with
      | some uu => exact ⟨_, rfl⟩
      | none => exact ⟨_, rfl⟩
    | empty => exact ⟨_, rfl⟩
    | err => exact ⟨_, rfl⟩
  | err =>
    cases sB with
    | ok v =>
      obtain ⟨u, e, g, j⟩ := v
      cases u with
      | some uu => exact ⟨_, rfl⟩
      | none => exact ⟨_, rfl⟩
    | empty => exact ⟨_, rfl⟩
    | err => exact ⟨_, rfl⟩

/-- The four bands of the fuel classifier, characterized by the chain of
strict comparisons of the source. -/
theorem fuelSignal_cases (c : ℚ) :
    (fuelHedgingSignal c = .HIGH_HEDGE ↔ 2 < c)
    ∧ (fuelHedgingSignal c = .MODERATE_HEDGE ↔ 0.5 < c ∧ c ≤ 2)
    ∧ (fuelHedgingSignal c = .LOW_HEDGE ↔ c < -1 ∧ c ≤ 0.5)
    ∧ (fuelHedgingSignal c = .MONITOR ↔ -1 ≤ c ∧ c ≤ 0.5) := by
  unfold fuelHedgingSignal
  split_ifs with h1 h2 h3 <;>
    refine ⟨?_, ?_, ?_, ?_⟩ <;> simp <;> try push_neg
  all_goals
    first
      | linarith
      | exact ⟨by linarith, by linarith⟩
      | (intro h; linarith)

/-- The three bands of the currency classifier, characterized by the
chain of absolute value comparisons of the source. -/
theorem currencySignal_cases (c : ℚ) :
    (currencyHedgingSignal c = .HIGH_VOLATILITY ↔ 1 < |c|)
    ∧ (currencyHedgingSignal c = .MODERATE_VOLATILITY ↔ 0.3 < |c| ∧ |c| ≤ 1)
    ∧ (currencyHedgingSignal c = .STABLE ↔ |c| ≤ 0.3) := by
  unfold currencyHedgingSignal
  split_ifs with h1 h2 <;>
    refine ⟨?_, ?_, ?_⟩ <;> simp <;> try push_neg
  all_goals
    first
      | linarith
      | exact ⟨by linarith, by linarith⟩
      | (intro h; linarith)

/-- C2: for every pair of benchmark prices obtained from the live fuel
source, the produced observation derives jet_fuel as
round((brent + wti) / 2 * 1.35, 6) exactly, and carries the benchmarks
rounded to 2 decimals. -/
theorem C2_jet_fuel_derivation :
    ∀ (brent wti dj dbr dw : ℚ) (now : ℤ),
      get_live_fuel_prices ⟨.ok (brent, wti), dj, dbr, dw, now⟩
        = some { jet_fuel := pyRound ((brent + wti) / 2 * 1.35) 6
                 brent_crude := pyRound brent 2
                 wti_crude := pyRound wti 2
                 timestamp := now } :=
  fun _ _ _ _ _ _ => rfl

/-- C4: the fuel signal bands are HIGH_HEDGE on c above 2, MODERATE_HEDGE
on 0.5 to 2, LOW_HEDGE on c below -1, MONITOR otherwise, first match
winning, and the currency signal bands are HIGH_VOLATILITY on absolute
change above 1, MODERATE_VOLATILITY on 0.3 to 1, STABLE otherwise; the
seven literal cases of the spec evaluate accordingly. -/
theorem C4_signal_classifier_thresholds :
    (∀ c : ℚ,
      (fuelHedgingSignal c = .HIGH_HEDGE ↔ 2 < c)
      ∧ (fuelHedgingSignal c = .MODERATE_HEDGE ↔ 0.5 < c ∧ c ≤ 2)
      ∧ (fuelHedgingSignal c = .LOW_HEDGE ↔ c < -1 ∧ c ≤ 0.5)
      ∧ (fuelHedgingSignal c = .MONITOR ↔ -1 ≤ c ∧ c ≤ 0.5))
    ∧ (∀ c : ℚ,
      (currencyHedgingSignal c = .HIGH_VOLATILITY ↔ 1 < |c|)
      ∧ (currencyHedgingSignal c = .MODERATE_VOLATILITY ↔ 0.3 < |c| ∧ |c| ≤ 1)
      ∧ (currencyHedgingSignal c = .STABLE ↔ |c| ≤ 0.3))
    ∧ fuelHedgingSignal 2.5 = .HIGH_HEDGE
    ∧ fuelHedgingSignal 1 = .MODERATE_HEDGE
    ∧ fuelHedgingSignal (-1.5) = .LOW_HEDGE
    ∧ fuelHedgingSignal 0.1 = .MONITOR
    ∧ currencyHedgingSignal 1.2 = .HIGH_VOLATILITY
    ∧ currencyHedgingSignal (-0.5) = .MODERATE_VOLATILITY
    ∧ currencyHedgingSignal 0.1 = .STABLE := by
  refine ⟨fuelSignal_cases, currencySignal_cases, ?_, ?_, ?_, ?_, ?_, ?_, ?_⟩ <;>
    norm_num [fuelHedgingSignal, currencyHedgingSignal, abs]

/-- C5: on two series of at least 2 records with nonzero previous values,
every key of the output equals (latest - previous) / previous * 100, and
the literal case of the spec, previous jet fuel 2.50 and latest 2.55,
yields a change of exactly 2 percent. -/
theorem C5_percentage_change_values :
    (∀ (lf pf : FuelObs) (rf : List FuelObs) (lc pc : CurrencyObs) (rc : List CurrencyObs),
      pf.jet_fuel ≠ 0 → pf.brent_crude ≠ 0 → pf.wti_crude ≠ 0 →
      pc.usd_inr ≠ 0 → pc.eur_inr ≠ 0 → pc.gbp_inr ≠ 0 → pc.jpy_inr ≠ 0 →
      calculate_price_changes (lf :: pf :: rf) (lc :: pc :: rc)
        = { jet_fuel_change := some ((lf.jet_fuel - pf.jet_fuel) / pf.jet_fuel * 100)
            brent_change := some ((lf.brent_crude - pf.brent_crude) / pf.brent_crude * 100)
            wti_change := some ((lf.wti_crude - pf.wti_crude) / pf.wti_crude * 100)
            usd_inr_change := some ((lc.usd_inr - pc.usd_inr) / pc.usd_inr * 100)
            eur_inr_change := some ((lc.eur_inr - pc.eur_inr) / pc.eur_inr * 100)
            gbp_inr_change := some ((lc.gbp_inr - pc.gbp_inr) / pc.gbp_inr * 100)
            jpy_inr_change := some ((lc.jpy_inr - pc.jpy_inr) / pc.jpy_inr * 100) })
    ∧ (calculate_price_changes
         [⟨2.55, 60, 55, 1⟩, ⟨2.50, 60, 55, 0⟩]
         [⟨83, 97, 105, 0.55, 1⟩, ⟨83, 97, 105, 0.55, 0⟩]).jet_fuel_change
        = some 2 := by
  constructor
  · intro lf pf rf lc pc rc _ _ _ _ _ _ _
    rfl
  · show some (pctChange 2.55 2.50) = some 2
    norm_num [pctChange]

/-- C8: on a USD based rate table holding all four entries, the four
cross rates are the INR rate itself and the three quotients, rounded to
2, 2, 2 and 6 decimals, and the literal table of the spec yields
eur_inr equal to 97.65. -/
theorem C8_cross_rate_reconstruction :
    (∀ (i e g j : ℚ) (now : ℤ),
      exchangerateCurrencyRates (some i) (some e) (some g) (some j) now
        = { usd_inr := pyRound i 2
            eur_inr := pyRound (i / e) 2
            gbp_inr := pyRound (i / g) 2
            jpy_inr := pyRound (i / j) 6
            timestamp := now })
    ∧ (exchangerateCurrencyRates (some 83) (some 0.85) (some 0.73) (some 110) 0).eur_inr
        = 97.65
    ∧ pyRound ((83 : ℚ) / 0.85) 2 = 97.65 := by
  refine ⟨fun i e g j now => rfl, ?_, ?_⟩
  · show pyRound ((83 : ℚ) / 0.85) 2 = 97.65
    norm_num [pyRound, roundHalfEven]
  · norm_num [pyRound, roundHalfEven]

/-- C10: despite the Optional annotations, neither fetcher ever returns
None: every source outcome ends in an observation, and the observation
types carry exactly the fields the persistence writer reads, so its
field accesses always succeed. -/
theorem C10_fetchers_never_none :
    (∀ fenv : FuelEnv, (get_live_fuel_prices fenv).isSome = true)
    ∧ (∀ cenv : CurrencyEnv, (get_live_currency_rates cenv).isSome = true) := by
  constructor
  · intro fenv
    obtain ⟨f, hf⟩ := fuel_fetch_total fenv
    rw [hf]; rfl
  · intro cenv
    obtain ⟨c, hc⟩ := currency_fetch_total cenv
    rw [hc]; rfl

/-- An integer lower bound below a rational is a lower bound of its half
to even rounding. -/
theorem le_roundHalfEven (a : ℤ) (x : ℚ) (h : (a : ℚ) ≤ x) : a ≤ roundHalfEven x := by
  have hf : a ≤ ⌊x⌋ := Int.le_floor.mpr h
  unfold roundHalfEven
  split_ifs <;> omega

/-- An integer upper bound above a rational is an upper bound of its half
to even rounding. -/
theorem roundHalfEven_le (b : ℤ) (x : ℚ) (h : x ≤ (b : ℚ)) : roundHalfEven x ≤ b := by
  have hfb : ⌊x⌋ ≤ b := by
    have h2 := Int.floor_le_floor h
    rwa [Int.floor_intCast] at h2
  have hstrict : (1/2 : ℚ) ≤ x - ⌊x⌋ → ⌊x⌋ < b := by
    intro hr
    rcases lt_or_eq_of_le hfb with hlt | heq
    · exact hlt
    · exfalso
      have h5 : x ≤ ((⌊x⌋ : ℤ) : ℚ) := by rw [heq]; exact h
      have h6 : ((⌊x⌋ : ℤ) : ℚ) ≤ x := Int.floor_le x
      linarith
  unfold roundHalfEven
  split_ifs with h1 h2 h3
  · exact hfb
  · have := hstrict (le_of_lt h2); omega
  · exact hfb
  · have := hstrict (not_lt.mp h1); omega

/-- Rounding to n decimal places keeps a value between bounds that are
themselves multiples of one over ten to the n. -/
theorem pyRound_mem (a b : ℤ) (n : ℕ) (x lo hi : ℚ)
    (ha : lo = (a : ℚ) / 10 ^ n) (hb : hi = (b : ℚ) / 10 ^ n)
    (h1 : lo ≤ x) (h2 : x ≤ hi) :
    lo ≤ pyRound x n ∧ pyRound x n ≤ hi := by
  have hp : (0 : ℚ) < 10 ^ n := by positivity
  subst ha hb
  constructor
  · have hax : (a : ℚ) ≤ x * 10 ^ n := (div_le_iff₀ hp).mp h1
    have hr := le_roundHalfEven a (x * 10 ^ n) hax
    unfold pyRound
    rw [div_le_div_iff_of_pos_right]
    · exact_mod_cast hr
    · exact hp
  · have hxb : x * 10 ^ n ≤ (b : ℚ) := (le_div_iff₀ hp).mp h2
    have hr := roundHalfEven_le b (x * 10 ^ n) hxb
    unfold pyRound
    rw [div_le_div_iff_of_pos_right]
    · exact_mod_cast hr
    · exact hp

/-- C6: the fallback generators are total Lean functions of their draws,
so they always succeed, and whenever the draws lie in the intervals
random.uniform is called with, every rounded field of the produced
observation lies in the same closed interval. -/
theorem C6_fallback_bounds :
    ∀ (j b w u e g jp : ℚ) (tf tc : ℤ),
      2.3 ≤ j → j ≤ 2.6 → 60 ≤ b → b ≤ 70 → 55 ≤ w → w ≤ 65 →
      88 ≤ u → u ≤ 90 → 102 ≤ e → e ≤ 105 → 117 ≤ g → g ≤ 120 →
      0.57 ≤ jp → jp ≤ 0.58 →
      (2.3 ≤ (fallbackFuelPrices j b w tf).jet_fuel
        ∧ (fallbackFuelPrices j b w tf).jet_fuel ≤ 2.6)
      ∧ (60 ≤ (fallbackFuelPrices j b w tf).brent_crude
        ∧ (fallbackFuelPrices j b w tf).brent_crude ≤ 70)
      ∧ (55 ≤ (fallbackFuelPrices j b w tf).wti_crude
        ∧ (fallbackFuelPrices j b w tf).wti_crude ≤ 65)
      ∧ (88 ≤ (fallbackCurrencyRates u e g jp tc).usd_inr
        ∧ (fallbackCurrencyRates u e g jp tc).usd_inr ≤ 90)
      ∧ (102 ≤ (fallbackCurrencyRates u e g jp tc).eur_inr
        ∧ (fallbackCurrencyRates u e g jp tc).eur_inr ≤ 105)
      ∧ (117 ≤ (fallbackCurrencyRates u e g jp tc).gbp_inr
        ∧ (fallbackCurrencyRates u e g jp tc).gbp_inr ≤ 120)
      ∧ (0.57 ≤ (fallbackCurrencyRates u e g jp tc).jpy_inr
        ∧ (fallbackCurrencyRates u e g jp tc).jpy_inr ≤ 0.58) := by
  intro j b w u e g jp tf tc hj1 hj2 hb1 hb2 hw1 hw2 hu1 hu2 he1 he2 hg1 hg2 hp1 hp2
  refine ⟨?_, ?_, ?_, ?_, ?_, ?_, ?_⟩
  · exact pyRound_mem 2300000 2600000 6 j 2.3 2.6 (by norm_num) (by norm_num) hj1 hj2
  · exact pyRound_mem 6000 7000 2 b 60 70 (by norm_num) (by norm_num) hb1 hb2
  · exact pyRound_mem 5500 6500 2 w 55 65 (by norm_num) (by norm_num) hw1 hw2
  · exact pyRound_mem 8800 9000 2 u 88 90 (by norm_num) (by norm_num) hu1 hu2
  · exact pyRound_mem 10200 10500 2 e 102 105 (by norm_num) (by norm_num) he1 he2
  · exact pyRound_mem 11700 12000 2 g 117 120 (by norm_num) (by norm_num) hg1 hg2
  · exact pyRound_mem 570000 580000 6 jp 0.57 0.58 (by norm_num) (by norm_num) hp1 hp2

/-- Witness for C6 at one concrete vector of draws inside every interval. -/
theorem C6_fallback_bounds_witness :
    (2.3 ≤ (fallbackFuelPrices 2.4 65 60 0).jet_fuel
      ∧ (fallbackFuelPrices 2.4 65 60 0).jet_fuel ≤ 2.6)
    ∧ (60 ≤ (fallbackFuelPrices 2.4 65 60 0).brent_crude
      ∧ (fallbackFuelPrices 2.4 65 60 0).brent_crude ≤ 70)
    ∧ (55 ≤ (fallbackFuelPrices 2.4 65 60 0).wti_crude
      ∧ (fallbackFuelPrices 2.4 65 60 0).wti_crude ≤ 65)
    ∧ (88 ≤ (fallbackCurrencyRates 89 103 118 0.575 0).usd_inr
      ∧ (fallbackCurrencyRates 89 103 118 0.575 0).usd_inr ≤ 90)
    ∧ (102 ≤ (fallbackCurrencyRates 89 103 118 0.575 0).eur_inr
      ∧ (fallbackCurrencyRates 89 103 118 0.575 0).eur_inr ≤ 105)
    ∧ (117 ≤ (fallbackCurrencyRates 89 103 118 0.575 0).gbp_inr
      ∧ (fallbackCurrencyRates 89 103 118 0.575 0).gbp_inr ≤ 120)
    ∧ (0.57 ≤ (fallbackCurrencyRates 89 103 118 0.575 0).jpy_inr
      ∧ (fallbackCurrencyRates 89 103 118 0.575 0).jpy_inr ≤ 0.58) :=
  C6_fallback_bounds 2.4 65 60 89 103 118 0.575 0 0
    (by norm_num) (by norm_num) (by norm_num) (by norm_num) (by norm_num)
    (by norm_num) (by norm_num) (by norm_num) (by norm_num) (by norm_num)
    (by norm_num) (by norm_num) (by norm_num) (by norm_num)

/-- C3 as stated is false on the code at a concrete input: with an empty
fuel frame and a currency frame of two records with nonzero previous
values, the currency keys are absent from the output too, because the
function returns the empty dict as soon as either frame is empty; and
with two fuel records whose previous jet fuel value is zero, the jet
fuel key is present in the output, not absent. -/
theorem C3_counterexample :
    (calculate_price_changes []
        [⟨84, 95, 110, 0.6, 1⟩, ⟨83, 94, 109, 0.59, 0⟩]).usd_inr_change = none
    ∧ (calculate_price_changes [⟨1, 61, 56, 1⟩, ⟨0, 60, 55, 0⟩]
        [⟨84, 95, 110, 0.6, 1⟩, ⟨83, 94, 109, 0.59, 0⟩]).jet_fuel_change.isSome = true :=
  ⟨rfl, rfl⟩

/-- C3 amended: the change calculator is a total function (it cannot
crash); when either frame is empty the whole output dict is empty, even
when the other frame has at least 2 records; otherwise the keys of a
series are absent exactly when that series has fewer than 2 records,
independently per series; and a zero previous value does not remove a
key: the key is still present, carrying the result of the division. -/
theorem C3_amended_key_absence :
    (∀ (fdf : List FuelObs) (cdf : List CurrencyObs),
      fdf = [] ∨ cdf = [] → calculate_price_changes fdf cdf = noChanges)
    ∧ (∀ (f : FuelObs) (lc pc : CurrencyObs) (rc : List CurrencyObs),
      (calculate_price_changes [f] (lc :: pc :: rc)).jet_fuel_change = none
      ∧ (calculate_price_changes [f] (lc :: pc :: rc)).brent_change = none
      ∧ (calculate_price_changes [f] (lc :: pc :: rc)).wti_change = none
      ∧ (calculate_price_changes [f] (lc :: pc :: rc)).usd_inr_change.isSome = true
      ∧ (calculate_price_changes [f] (lc :: pc :: rc)).eur_inr_change.isSome = true
      ∧ (calculate_price_changes [f] (lc :: pc :: rc)).gbp_inr_change.isSome = true
      ∧ (calculate_price_changes [f] (lc :: pc :: rc)).jpy_inr_change.isSome = true)
    ∧ (∀ (lf pf : FuelObs) (rf : List FuelObs) (c : CurrencyObs),
      (calculate_price_changes (lf :: pf :: rf) [c]).jet_fuel_change.isSome = true
      ∧ (calculate_price_changes (lf :: pf :: rf) [c]).brent_change.isSome = true
      ∧ (calculate_price_changes (lf :: pf :: rf) [c]).wti_change.isSome = true
      ∧ (calculate_price_changes (lf :: pf :: rf) [c]).usd_inr_change = none
      ∧ (calculate_price_changes (lf :: pf :: rf) [c]).eur_inr_change = none
      ∧ (calculate_price_changes (lf :: pf :: rf) [c]).gbp_inr_change = none
      ∧ (calculate_price_changes (lf :: pf :: rf) [c]).jpy_inr_change = none)
    ∧ (∀ (lf pf : FuelObs) (rf : List FuelObs) (lc pc : CurrencyObs) (rc : List CurrencyObs),
      (calculate_price_changes (lf :: pf :: rf) (lc :: pc :: rc)).jet_fuel_change.isSome = true
      ∧ (calculate_price_changes (lf :: pf :: rf) (lc :: pc :: rc)).brent_change.isSome = true
      ∧ (calculate_price_changes (lf :: pf :: rf) (lc :: pc :: rc)).wti_change.isSome = true
      ∧ (calculate_price_changes (lf :: pf :: rf) (lc :: pc :: rc)).usd_inr_change.isSome = true
      ∧ (calculate_price_changes (lf :: pf :: rf) (lc :: pc :: rc)).eur_inr_change.isSome = true
      ∧ (calculate_price_changes (lf :: pf :: rf) (lc :: pc :: rc)).gbp_inr_change.isSome = true
      ∧ (calculate_price_changes (lf :: pf :: rf) (lc :: pc :: rc)).jpy_inr_change.isSome = true) := by
  refine ⟨?_, ?_, ?_, ?_⟩
  · intro fdf cdf h
    rcases h with h | h <;> subst h <;> simp [calculate_price_changes]
  · exact fun f lc pc rc => ⟨rfl, rfl, rfl, rfl, rfl, rfl, rfl⟩
  · exact fun lf pf rf c => ⟨rfl, rfl, rfl, rfl, rfl, rfl, rfl⟩
  · exact fun lf pf rf lc pc rc => ⟨rfl, rfl, rfl, rfl, rfl, rfl, rfl⟩

/-- C7 as stated is false on the code at a concrete input: when the usd
pair quote comes back empty while the three other pair quotes are live,
source B does not substitute a default for the failed pair; the whole
Yahoo Finance branch yields nothing, and the fetch falls through to the
fallback generator, discarding the live eur, gbp and jpy quotes. -/
theorem C7_counterexample :
    yahooCurrencyRates none (some 95) (some 110) (some 0.6) 0 = none
    ∧ get_live_currency_rates
        ⟨.err, .ok (none, some 95, some 110, some 0.6), 89, 103, 118, 0.575, 7⟩
      = some (fallbackCurrencyRates 89 103 118 0.575 7) :=
  ⟨rfl, rfl⟩

/-- C7 amended: in source B only the eur, gbp and jpy pair quotes fail
independently, each replaced by its fixed literal default 90.0, 105.0 or
0.55 while the remaining pairs keep their live values; a failed usd
quote instead fails source B as a whole, and the fetch then succeeds
from the fallback generator rather than from source B. -/
theorem C7_amended_source_b_degradation :
    (∀ (u : ℚ) (e g j : Option ℚ) (now : ℤ),
      yahooCurrencyRates (some u) e g j now
        = some { usd_inr := pyRound u 2
                 eur_inr := (e.map (fun x => pyRound x 2)).getD 90.0
                 gbp_inr := (g.map (fun x => pyRound x 2)).getD 105.0
                 jpy_inr := (j.map (fun x => pyRound x 6)).getD 0.55
                 timestamp := now })
    ∧ (∀ (e g j : Option ℚ) (now : ℤ), yahooCurrencyRates none e g j now = none)
    ∧ (∀ (sA : SourceResult (Option ℚ × Option ℚ × Option ℚ × Option ℚ))
        (u : ℚ) (e g j : Option ℚ) (du de dg dj : ℚ) (now : ℤ),
      sA = .err ∨ sA = .empty →
      get_live_currency_rates ⟨sA, .ok (some u, e, g, j), du, de, dg, dj, now⟩
        = some { usd_inr := pyRound u 2
                 eur_inr := (e.map (fun x => pyRound x 2)).getD 90.0
                 gbp_inr := (g.map (fun x => pyRound x 2)).getD 105.0
                 jpy_inr := (j.map (fun x => pyRound x 6)).getD 0.55
                 timestamp := now })
    ∧ (∀ (sA : SourceResult (Option ℚ × Option ℚ × Option ℚ × Option ℚ))
        (e g j : Option ℚ) (du de dg dj : ℚ) (now : ℤ),
      sA = .err ∨ sA = .empty →
      get_live_currency_rates ⟨sA, .ok (none, e, g, j), du, de, dg, dj, now⟩
        = some (fallbackCurrencyRates du de dg dj now)) := by
  refine ⟨?_, ?_, ?_, ?_⟩
  · intro u e g j now
    cases e <;> cases g <;> cases j <;> rfl
  · intro e g j now
    rfl
  · intro sA u e g j du de dg dj now h
    rcases h with h | h <;> subst h <;> cases e <;> cases g <;> cases j <;> rfl
  · intro sA e g j du de dg dj now h
    rcases h with h | h <;> subst h <;> rfl

/-- C1 as stated is false on the code at a concrete input: with both
live sources healthy and a store that rejects the insert, the cycle
still returns success (true) to its caller, because the writer catches
and only logs the write error; nothing is stored and nothing is
retried, so the cycle result does not reflect the persistence failure. -/
theorem C1_counterexample :
    (collect_and_store_realtime_data
        ⟨.ok (70, 65), 2.4, 63, 58, 3⟩
        ⟨.ok (some 83, some 0.85, some 0.73, some 110), .err, 89, 103, 118, 0.575, 3⟩
        ⟨true, true, some [], some []⟩).1 = true
    ∧ (collect_and_store_realtime_data
        ⟨.ok (70, 65), 2.4, 63, 58, 3⟩
        ⟨.ok (some 83, some 0.85, some 0.73, some 110), .err, 89, 103, 118, 0.575, 3⟩
        ⟨true, true, some [], some []⟩).2
      = ⟨true, true, some [], some []⟩ :=
  ⟨rfl, rfl⟩

/-- C1 amended: when the database write fails (store unreachable, insert
rejected, or a table absent), the error is swallowed inside the writer
and the cycle is still reported as a success to its caller; there is no
retry and no re-queue, the store is left unchanged and the fetched
in-memory values are dropped. -/
theorem C1_amended_write_failure_swallowed :
    ∀ (fenv : FuelEnv) (cenv : CurrencyEnv) (db : DB),
      writeOk db = false →
      collect_and_store_realtime_data fenv cenv db = (true, db) := by
  intro fenv cenv db h
  obtain ⟨f, hf⟩ := fuel_fetch_total fenv
  obtain ⟨c, hc⟩ := currency_fetch_total cenv
  unfold collect_and_store_realtime_data
  rw [hf, hc]
  simp [store_data_in_database, h]

/-- Witness for the amended C1 at a concrete failing store. -/
theorem C1_amended_write_failure_swallowed_witness :
    collect_and_store_realtime_data
        ⟨.ok (70, 65), 2.4, 63, 58, 3⟩
        ⟨.err, .err, 89, 103, 118, 0.575, 3⟩
        ⟨false, false, some [], some []⟩
      = (true, ⟨false, false, some [], some []⟩) :=
  C1_amended_write_failure_swallowed _ _ _ rfl

/-- The newest first ordering produced by the two ORDER BY clauses is
pairwise descending in the timestamp. -/
theorem sortFuelDesc_pairwise (l : List FuelObs) :
    (sortFuelDesc l).Pairwise (fun a b => b.timestamp ≤ a.timestamp) := by
  have h : (l.mergeSort (fun a b : FuelObs => decide (b.timestamp ≤ a.timestamp))).Pairwise
      (fun a b : FuelObs => decide (b.timestamp ≤ a.timestamp) = true) :=
    List.sorted_mergeSort
      (by
        intro a b c hab hbc
        simp only [decide_eq_true_eq] at *
        exact le_trans hbc hab)
      (by
        intro a b
        simp only [Bool.or_eq_true, decide_eq_true_eq]
        exact le_total b.timestamp a.timestamp)
      l
  exact h.imp (by intro a b hb; exact of_decide_eq_true hb)

/-- The newest first ordering produced by the two ORDER BY clauses is
pairwise descending in the timestamp. -/
theorem sortCurrencyDesc_pairwise (l : List CurrencyObs) :
    (sortCurrencyDesc l).Pairwise (fun a b => b.timestamp ≤ a.timestamp) := by
  have h : (l.mergeSort (fun a b : CurrencyObs => decide (b.timestamp ≤ a.timestamp))).Pairwise
      (fun a b : CurrencyObs => decide (b.timestamp ≤ a.timestamp) = true) :=
    List.sorted_mergeSort
      (by
        intro a b c hab hbc
        simp only [decide_eq_true_eq] at *
        exact le_trans hbc hab)
      (by
        intro a b
        simp only [Bool.or_eq_true, decide_eq_true_eq]
        exact le_total b.timestamp a.timestamp)
      l
  exact h.imp (by intro a b hb; exact of_decide_eq_true hb)

/-- C9: the reader yields at most 100 records per series, newest first,
drawn from the stored series, and every kept record is at least as
recent as every record the LIMIT clause cut off; an unreachable store or
an absent table yields the explicit no data signal none, which is a
different value from a legitimate empty result; and a reachable store
whose tables exist but hold zero records yields the empty series pair,
not the no data signal. -/
theorem C9_reader_contract :
    (∀ db : DB, db.reachable = false → load_data db = none)
    ∧ (∀ db : DB, (db.fuel_prices = none ∨ db.currency_rates = none) → load_data db = none)
    ∧ (∀ (i : Bool) (f : List FuelObs) (c : List CurrencyObs),
        load_data ⟨true, i, some f, some c⟩
          = some ((sortFuelDesc f).take 100, (sortCurrencyDesc c).take 100))
    ∧ (∀ (f : List FuelObs) (c : List CurrencyObs),
        ((sortFuelDesc f).take 100).length ≤ 100
        ∧ ((sortCurrencyDesc c).take 100).length ≤ 100
        ∧ ((sortFuelDesc f).take 100).Pairwise (fun a b => b.timestamp ≤ a.timestamp)
        ∧ ((sortCurrencyDesc c).take 100).Pairwise (fun a b => b.timestamp ≤ a.timestamp)
        ∧ (∀ x ∈ (sortFuelDesc f).take 100, x ∈ f)
        ∧ (∀ x ∈ (sortCurrencyDesc c).take 100, x ∈ c)
        ∧ (∀ x ∈ (sortFuelDesc f).take 100, ∀ y ∈ (sortFuelDesc f).drop 100,
            y.timestamp ≤ x.timestamp)
        ∧ (∀ x ∈ (sortCurrencyDesc c).take 100, ∀ y ∈ (sortCurrencyDesc c).drop 100,
            y.timestamp ≤ x.timestamp))
    ∧ (∀ i : Bool, load_data ⟨true, i, some [], some []⟩ = some ([], []))
    ∧ (none : Option (List FuelObs × List CurrencyObs)) ≠ some ([], []) := by
  refine ⟨?_, ?_, ?_, ?_, ?_, ?_⟩
  · intro db h
    simp [load_data, h]
  · intro db h
    obtain ⟨r, i, fp, cp⟩ := db
    simp only at h
    rcases h with h | h <;> subst h <;> cases r <;>
      first
        | rfl
        | (cases fp <;> rfl)
  · intro i f c
    rfl
  · intro f c
    refine ⟨?_, ?_, ?_, ?_, ?_, ?_, ?_, ?_⟩
    · rw [List.length_take]; exact min_le_left _ _
    · rw [List.length_take]; exact min_le_left _ _
    · exact List.Pairwise.sublist (List.take_sublist 100 _) (sortFuelDesc_pairwise f)
    · exact List.Pairwise.sublist (List.take_sublist 100 _) (sortCurrencyDesc_pairwise c)
    · intro x hx
      exact (List.mergeSort_perm f _).subset (List.mem_of_mem_take hx)
    · intro x hx
      exact (List.mergeSort_perm c _).subset (List.mem_of_mem_take hx)
    · have hs := sortFuelDesc_pairwise f
      have ht := List.take_append_drop 100 (sortFuelDesc f)
      rw [← ht] at hs
      exact fun x hx y hy => (List.pairwise_append.mp hs).2.2 x hx y hy
    · have hs := sortCurrencyDesc_pairwise c
      have ht := List.take_append_drop 100 (sortCurrencyDesc c)
      rw [← ht] at hs
      exact fun x hx y hy => (List.pairwise_append.mp hs).2.2 x hx y hy
  · intro i
    simp [load_data, sortFuelDesc, sortCurrencyDesc]
  · intro h
    exact Option.noConfusion h

end Indigo
